import Mathlib

/-!
Verification of the student progress & metrics engine of the
cursosleadspj course platform, shallowly embedded from
`src/pages/Dash.tsx` and, for the parts of the pipeline whose code is
not in the repository snapshot (the `useStudentMetrics` hook), from the
specification. JavaScript numbers are modelled as exact rationals
(`ℚ`); the guards in the source make all divisions total here, which is
exactly the zero-safety the specification demands.
-/

namespace CursosLeadsPJ

/-- An enrollment record (spec section 3): one row per course the student
enrolled in, with a completion flag. -/
structure Enrollment where
  student_id : Nat
  course_id : Nat
  enrolled_at : Int
  completed : Bool
deriving Repr, DecidableEq

/-- A study session (spec section 3). `day` is `started_at` already
bucketed to a calendar day index in the reporting timezone (bucketing
itself is an input concern; the core reasons about whole days). -/
structure StudySession where
  student_id : Nat
  day : Int
  duration_minutes : ℚ
deriving Repr, DecidableEq

/-- An activity event (spec section 3): immutable, typed by a string tag. -/
structure ActivityEvent where
  id : Nat
  type : String
  title : String
  descr : String
  occurred_at : Int
deriving Repr, DecidableEq

/-- The derived metrics snapshot consumed by the dashboard
(spec section 3, `StudentMetrics`). -/
structure StudentMetrics where
  enrolledCoursesCount : Nat
  completedCoursesCount : Nat
  totalStudyTimeHours : ℚ
  weeklyStudiedHours : ℚ
  weeklyGoalHours : ℚ
  currentStreak : Nat
  certificatesEarned : Nat
  recentActivity : List ActivityEvent
deriving Repr, DecidableEq

/-- Completion rate as computed in `Dash.tsx` lines 53-55:
`enrolledCoursesCount > 0 ? (completed / enrolled) * 100 : 0`. -/
def completionRate (metrics : StudentMetrics) : ℚ :=
  if metrics.enrolledCoursesCount > 0 then
    ((metrics.completedCoursesCount : ℚ) / (metrics.enrolledCoursesCount : ℚ)) * 100
  else 0

/-- Weekly goal progress as computed in `Dash.tsx` lines 57-59:
`weeklyGoalHours > 0 ? (weeklyStudiedHours / weeklyGoalHours) * 100 : 0`. -/
def weeklyProgress (metrics : StudentMetrics) : ℚ :=
  if metrics.weeklyGoalHours > 0 then
    (metrics.weeklyStudiedHours / metrics.weeklyGoalHours) * 100
  else 0

/-- The icons the dashboard renders for activity entries
(the lucide-react components used in `Dash.tsx`). -/
inductive ActivityIcon where
  | bookOpen
  | award
  | trophy
  | activityFallback
deriving Repr, DecidableEq

/-- Icon selection as in `Dash.tsx` lines 61-74: a switch on the event
type string with a default arm returning the generic Activity icon. -/
def getActivityIcon (t : String) : ActivityIcon :=
  if t = "course_enrolled" then ActivityIcon.bookOpen
  else if t = "lesson_completed" then ActivityIcon.award
  else if t = "course_completed" then ActivityIcon.trophy
  else if t = "certificate_earned" then ActivityIcon.award
  else ActivityIcon.activityFallback

/-- Color-class selection as in `Dash.tsx` lines 76-89: a switch on the
event type string with a default arm returning the muted style. -/
def getActivityColor (t : String) : String :=
  if t = "course_enrolled" then "bg-primary/10 text-primary"
  else if t = "lesson_completed" then "bg-success/10 text-success"
  else if t = "course_completed" then "bg-warning/10 text-warning"
  else if t = "certificate_earned" then "bg-purple-100 text-purple-600"
  else "bg-muted text-muted-foreground"

/-- One rendered row of the recent-activity list (`Dash.tsx` lines 181-196):
category icon, category color, title and the textual body. -/
structure FeedEntry where
  icon : ActivityIcon
  color : String
  title : String
  descr : String
deriving Repr, DecidableEq

/-- Rendering of a single activity event into a feed row, as in the
`metrics.recentActivity.map` body of `Dash.tsx`. -/
def renderFeedEntry (a : ActivityEvent) : FeedEntry :=
  { icon := getActivityIcon a.type
    color := getActivityColor a.type
    title := a.title
    descr := a.descr }

/-- The three shapes the `StudentMetrics` component can return:
the loading spinner, the error message, or the full dashboard page.
The page carries the metrics, the two derived rates, the rendered feed
rows, and whether the empty-state message is shown. -/
inductive DashView where
  | loadingView : DashView
  | errorView : String → DashView
  | pageView : StudentMetrics → ℚ → ℚ → List FeedEntry → Bool → DashView
deriving Repr, DecidableEq

/-- The `StudentMetrics` component of `Dash.tsx` lines 29-208:
loading guard, then the `!metrics` error guard, then the page with the
derived rates, the mapped activity rows, and the empty-state flag of
lines 198-202. -/
def renderStudentMetrics (isLoading : Bool) (metrics : Option StudentMetrics) :
    DashView :=
  if isLoading then DashView.loadingView
  else
    match metrics with
    | none => DashView.errorView "Erro ao carregar metricas"
    | some m =>
        DashView.pageView m (completionRate m) (weeklyProgress m)
          (m.recentActivity.map renderFeedEntry)
          (decide (m.recentActivity.length = 0))

/-- Modelled from the spec: the Enrollment Aggregator of the
`useStudentMetrics` hook is not in the repository snapshot; spec
section 4.1 defines `enrolledCoursesCount` as the count of all
enrollment records for the student. -/
def enrolledCoursesCount (enrollments : List Enrollment) : Nat :=
  enrollments.length

/-- Modelled from the spec: spec section 4.1 defines
`completedCoursesCount` as the count of enrollments with
`completed = true`. -/
def completedCoursesCount (enrollments : List Enrollment) : Nat :=
  (enrollments.filter (fun e => e.completed)).length

/-- Modelled from the spec: total study time (spec section 4.2), the sum
of `duration_minutes` over all sessions converted to hours, computed as
the usual reduce over the list. -/
def totalStudyTimeHours (sessions : List StudySession) : ℚ :=
  (sessions.foldl (fun acc s => acc + s.duration_minutes) 0) / 60

/-- Modelled from the spec: weekly studied hours (spec section 4.2), the
sum of durations of the sessions falling in the 7 calendar days ending
today inclusive. -/
def weeklyStudiedHours (sessions : List StudySession) (today : Int) : ℚ :=
  ((sessions.filter (fun s => today - 6 ≤ s.day && s.day ≤ today)).foldl
    (fun acc s => acc + s.duration_minutes) 0) / 60

/-- Modelled from the spec: the set of active calendar days of the
streak algorithm (spec section 4.2), duplicate days collapsed. -/
def activeDays (sessions : List StudySession) : List Int :=
  (sessions.map (fun s => s.day)).dedup

/-- Modelled from the spec: the backward walk of the streak algorithm
(spec section 4.2): starting at day `d`, count consecutive active days,
stopping at the first inactive day. `fuel` bounds the recursion; any
fuel at least the number of distinct active days is enough. -/
def streakFrom (active : List Int) : Nat → Int → Nat
  | 0, _ => 0
  | fuel + 1, d =>
      if d ∈ active then streakFrom active fuel (d - 1) + 1 else 0

/-- Modelled from the spec: the current streak (spec section 4.2).
The walk starts at today when today is active; otherwise at yesterday,
so that a day in progress does not break the streak. A day after today
(clock skew) is never reached by the backward walk. -/
def currentStreak (sessions : List StudySession) (today : Int) : Nat :=
  let active := activeDays sessions
  if today ∈ active then streakFrom active active.length today
  else streakFrom active active.length (today - 1)

/-- Modelled from the spec: certificates earned, counted from the
certificate activity events (spec section 3). -/
def certificatesEarned (events : List ActivityEvent) : Nat :=
  (events.filter (fun e => e.type = "certificate_earned")).length

/-- Modelled from the spec: the feed order of the Activity Feed Builder
(spec section 4.3): `occurred_at` descending, ties broken by event id
descending. `feedOrder a b` holds when `a` comes no later than `b` in
the feed. -/
def feedOrder (a b : ActivityEvent) : Prop :=
  b.occurred_at < a.occurred_at ∨
    (a.occurred_at = b.occurred_at ∧ b.id ≤ a.id)

instance : DecidableRel feedOrder := fun a b => by
  unfold feedOrder; exact inferInstance

instance : IsTotal ActivityEvent feedOrder where
  total a b := by
    unfold feedOrder
    rcases lt_trichotomy a.occurred_at b.occurred_at with h | h | h
    · exact Or.inr (Or.inl h)
    · rcases le_total b.id a.id with h2 | h2
      · exact Or.inl (Or.inr ⟨h, h2⟩)
      · exact Or.inr (Or.inr ⟨h.symm, h2⟩)
    · exact Or.inl (Or.inl h)

instance : IsTrans ActivityEvent feedOrder where
  trans a b c hab hbc := by
    unfold feedOrder at *
    rcases hab with h1 | ⟨h1, h1i⟩ <;> rcases hbc with h2 | ⟨h2, h2i⟩
    · exact Or.inl (h2.trans h1)
    · exact Or.inl (h2 ▸ h1)
    · exact Or.inl (h1 ▸ h2)
    · exact Or.inr ⟨h1.trans h2, h2i.trans h1i⟩

/-- Modelled from the spec: the Activity Feed Builder (spec section 4.3):
sort newest-first with the deterministic tie-break, then truncate to the
feed limit, dropping entries past the cap. -/
def buildFeed (events : List ActivityEvent) (feedLimit : Nat) :
    List ActivityEvent :=
  (List.insertionSort feedOrder events).take feedLimit

/-- The raw inputs of one metrics request: the four fetched slices plus
the explicit current day and feed limit (spec sections 6 and 9). -/
structure MetricsInput where
  enrollments : List Enrollment
  sessions : List StudySession
  events : List ActivityEvent
  weeklyGoalHours : ℚ
  today : Int
  feedLimit : Nat
deriving Repr, DecidableEq

/-- Modelled from the spec: `computeStudentMetrics` (spec section 6),
assembling the three independent sub-computations into one snapshot. -/
def computeStudentMetrics (input : MetricsInput) : StudentMetrics :=
  { enrolledCoursesCount := enrolledCoursesCount input.enrollments
    completedCoursesCount := completedCoursesCount input.enrollments
    totalStudyTimeHours := totalStudyTimeHours input.sessions
    weeklyStudiedHours := weeklyStudiedHours input.sessions input.today
    weeklyGoalHours := input.weeklyGoalHours
    currentStreak := currentStreak input.sessions input.today
    certificatesEarned := certificatesEarned input.events
    recentActivity := buildFeed input.events input.feedLimit }

/-- A study session on day `d` with a 30-minute duration, used as a
concrete fixture. -/
def sessOn (d : Int) : StudySession :=
  { student_id := 1, day := d, duration_minutes := 30 }

/-- A lesson-completed activity event with id `i` at time `t`, used as a
concrete fixture. -/
def evAt (i : Nat) (t : Int) : ActivityEvent :=
  { id := i, type := "lesson_completed", title := "Aula", descr := "Detalhe"
    occurred_at := t }

/-- The snapshot of a student with no data yet: every count and sum is
zero and the feed is empty. -/
def emptyMetrics : StudentMetrics :=
  { enrolledCoursesCount := 0, completedCoursesCount := 0
    totalStudyTimeHours := 0, weeklyStudiedHours := 0, weeklyGoalHours := 0
    currentStreak := 0, certificatesEarned := 0, recentActivity := [] }

/-- A small concrete metrics request: two enrollments (one completed),
one session today, one event, goal 5 hours, feed limit 10. -/
def sampleInput : MetricsInput :=
  { enrollments :=
      [ { student_id := 1, course_id := 1, enrolled_at := 0, completed := true }
      , { student_id := 1, course_id := 2, enrolled_at := 0, completed := false } ]
    sessions := [sessOn 100]
    events := [evAt 1 5]
    weeklyGoalHours := 5
    today := 100
    feedLimit := 10 }

/-- Reduce of session durations from any accumulator equals the
accumulator plus the mapped sum. -/
theorem foldl_add_eq_sum (l : List StudySession) (acc : ℚ) :
    l.foldl (fun a s => a + s.duration_minutes) acc =
      acc + (l.map (fun s => s.duration_minutes)).sum := by
  induction l generalizing acc with
  | nil => simp
  | cons s rest ih => simp [ih, add_assoc]

/-- C1: the completion rate equals
`completedCoursesCount / enrolledCoursesCount * 100` when
`enrolledCoursesCount > 0` and is exactly `0` when the count is zero;
in the rational model every division is total, so no `NaN` or infinity
can arise. -/
theorem completionRate_formula (m : StudentMetrics) :
    (m.enrolledCoursesCount > 0 →
      completionRate m =
        ((m.completedCoursesCount : ℚ) / (m.enrolledCoursesCount : ℚ)) * 100) ∧
    (m.enrolledCoursesCount = 0 → completionRate m = 0) := by
  constructor
  · intro h
    simp only [completionRate]
    rw [if_pos h]
  · intro h
    simp only [completionRate]
    rw [if_neg (by omega)]

/-- Witness for C1 at a student with 2 of 4 courses completed and at the
empty snapshot. -/
theorem completionRate_formula_witness :
    completionRate
        { enrolledCoursesCount := 4, completedCoursesCount := 2
          totalStudyTimeHours := 0, weeklyStudiedHours := 0
          weeklyGoalHours := 0, currentStreak := 0, certificatesEarned := 0
          recentActivity := [] } =
      (((2 : Nat) : ℚ) / ((4 : Nat) : ℚ)) * 100 ∧
    completionRate emptyMetrics = 0 :=
  ⟨(completionRate_formula _).1 (by decide),
   (completionRate_formula emptyMetrics).2 rfl⟩

/-- C2: the aggregated counts satisfy
`completedCoursesCount ≤ enrolledCoursesCount`, and the completion rate
derived from them lies in `[0, 100]`. -/
theorem enrollment_invariants (input : MetricsInput) :
    (computeStudentMetrics input).completedCoursesCount ≤
      (computeStudentMetrics input).enrolledCoursesCount ∧
    0 ≤ completionRate (computeStudentMetrics input) ∧
    completionRate (computeStudentMetrics input) ≤ 100 := by
  set m := computeStudentMetrics input with hm
  have hle : m.completedCoursesCount ≤ m.enrolledCoursesCount := by
    rw [hm]
    exact List.length_filter_le _ _
  refine ⟨hle, ?_, ?_⟩
  · unfold completionRate
    split
    · positivity
    · exact le_refl 0
  · unfold completionRate
    split
    · rename_i hpos
      have he : (0 : ℚ) < (m.enrolledCoursesCount : ℚ) := by exact_mod_cast hpos
      have hdiv : ((m.completedCoursesCount : ℚ) / (m.enrolledCoursesCount : ℚ)) ≤ 1 := by
        rw [div_le_one he]
        exact_mod_cast hle
      calc ((m.completedCoursesCount : ℚ) / (m.enrolledCoursesCount : ℚ)) * 100
          ≤ 1 * 100 := mul_le_mul_of_nonneg_right hdiv (by norm_num)
        _ = 100 := by norm_num
    · norm_num

/-- C3: the weekly goal progress equals
`weeklyStudiedHours / weeklyGoalHours * 100` when `weeklyGoalHours > 0`
and is exactly `0` when `weeklyGoalHours ≤ 0`; no division by zero can
occur. -/
theorem weeklyProgress_formula (m : StudentMetrics) :
    (m.weeklyGoalHours > 0 →
      weeklyProgress m = (m.weeklyStudiedHours / m.weeklyGoalHours) * 100) ∧
    (m.weeklyGoalHours ≤ 0 → weeklyProgress m = 0) := by
  constructor
  · intro h
    simp only [weeklyProgress]
    rw [if_pos h]
  · intro h
    simp only [weeklyProgress]
    rw [if_neg (not_lt.mpr h)]

/-- Witness for C3 at a goal of 5 hours with 2 hours studied, and at the
zero-goal snapshot. -/
theorem weeklyProgress_formula_witness :
    weeklyProgress
        { enrolledCoursesCount := 0, completedCoursesCount := 0
          totalStudyTimeHours := 0, weeklyStudiedHours := 2
          weeklyGoalHours := 5, currentStreak := 0, certificatesEarned := 0
          recentActivity := [] } =
      (((2 : ℚ)) / ((5 : ℚ))) * 100 ∧
    weeklyProgress emptyMetrics = 0 :=
  ⟨(weeklyProgress_formula _).1 (by norm_num),
   (weeklyProgress_formula emptyMetrics).2 (le_refl 0)⟩

/-- C4: every event type outside the four known tags maps to the generic
Activity icon and the muted color, so unknown types never fail. -/
theorem unknownType_fallback (t : String)
    (h : t ∉ ["course_enrolled", "lesson_completed", "course_completed",
      "certificate_earned"]) :
    getActivityIcon t = ActivityIcon.activityFallback ∧
    getActivityColor t = "bg-muted text-muted-foreground" := by
  simp only [List.mem_cons, List.not_mem_nil, or_false, not_or] at h
  obtain ⟨h1, h2, h3, h4⟩ := h
  constructor
  · simp [getActivityIcon, h1, h2, h3, h4]
  · simp [getActivityColor, h1, h2, h3, h4]

/-- Witness for C4 at the unknown type string "profile_updated". -/
theorem unknownType_fallback_witness :
    getActivityIcon "profile_updated" = ActivityIcon.activityFallback ∧
    getActivityColor "profile_updated" = "bg-muted text-muted-foreground" :=
  unknownType_fallback "profile_updated" (by decide)

/-- C5: the streak walks backward over consecutive active days: sessions
on days today, today-1 and today-2 give streak 3; sessions on today-1
and today-3 give streak 1; no sessions give streak 0; a session dated
tomorrow is not counted as activity for today (alone it gives 0, and
alongside a session today it gives 1, not 2), and the computation
terminates. -/
theorem currentStreak_cases :
    currentStreak [sessOn 100, sessOn 99, sessOn 98] 100 = 3 ∧
    currentStreak [sessOn 99, sessOn 97] 100 = 1 ∧
    currentStreak ([] : List StudySession) 100 = 0 ∧
    currentStreak [sessOn 101] 100 = 0 ∧
    currentStreak [sessOn 101, sessOn 100] 100 = 1 := by
  decide

/-- C6: the feed is sorted by `occurred_at` descending with ties broken
by id descending, its length never exceeds the feed limit, and on events
with timestamps 9 > 5 > 3 and limit 2 it is exactly the two newest, in
order. -/
theorem activityFeed_order :
    (∀ (events : List ActivityEvent) (limit : Nat),
        List.Sorted feedOrder (buildFeed events limit) ∧
        (buildFeed events limit).length ≤ limit) ∧
    buildFeed [evAt 1 5, evAt 2 3, evAt 3 9] 2 = [evAt 3 9, evAt 1 5] := by
  constructor
  · intro events limit
    constructor
    · exact List.Pairwise.sublist (List.take_sublist _ _)
        (List.sorted_insertionSort feedOrder events)
    · rw [buildFeed, List.length_take]
      exact min_le_left _ _
  · decide

/-- C7: total study time is the exact sum of the sessions' durations
converted to hours, and is invariant under any permutation of the
session list. -/
theorem totalStudyTime_exact (l l2 : List StudySession) (h : l.Perm l2) :
    totalStudyTimeHours l = (l.map (fun s => s.duration_minutes)).sum / 60 ∧
    totalStudyTimeHours l = totalStudyTimeHours l2 := by
  have key : ∀ xs : List StudySession,
      totalStudyTimeHours xs = (xs.map (fun s => s.duration_minutes)).sum / 60 := by
    intro xs
    unfold totalStudyTimeHours
    rw [foldl_add_eq_sum, zero_add]
  refine ⟨key l, ?_⟩
  rw [key l, key l2, (h.map _).sum_eq]

/-- Witness for C7 at a two-session list and its swap. -/
theorem totalStudyTime_exact_witness :
    totalStudyTimeHours [sessOn 1, sessOn 2] =
      ([sessOn 1, sessOn 2].map (fun s => s.duration_minutes)).sum / 60 ∧
    totalStudyTimeHours [sessOn 1, sessOn 2] =
      totalStudyTimeHours [sessOn 2, sessOn 1] :=
  totalStudyTime_exact _ _ (by decide)

/-- C8: a failed fetch (no metrics value) renders the error view, no
metrics value ever renders the error view, and a student with no data
renders a valid page with zero rates and an empty feed, distinct from
the failure state. -/
theorem fetchFailure_distinct :
    renderStudentMetrics false none =
      DashView.errorView "Erro ao carregar metricas" ∧
    (∀ (m : StudentMetrics) (s : String),
        renderStudentMetrics false (some m) ≠ DashView.errorView s) ∧
    renderStudentMetrics false (some emptyMetrics) =
      DashView.pageView emptyMetrics 0 0 [] true := by
  refine ⟨rfl, ?_, ?_⟩
  · intro m s hcontra
    simp [renderStudentMetrics] at hcontra
  · decide

/-- C9: computing the metrics twice over the same underlying data gives
identical snapshots and identical rendered views; the pipeline is a
function of its explicit inputs only. -/
theorem computeMetrics_deterministic (i1 i2 : MetricsInput) (h : i1 = i2) :
    computeStudentMetrics i1 = computeStudentMetrics i2 ∧
    renderStudentMetrics false (some (computeStudentMetrics i1)) =
      renderStudentMetrics false (some (computeStudentMetrics i2)) := by
  subst h
  exact ⟨rfl, rfl⟩

/-- Witness for C9 at the sample request. -/
theorem computeMetrics_deterministic_witness :
    computeStudentMetrics sampleInput = computeStudentMetrics sampleInput ∧
    renderStudentMetrics false (some (computeStudentMetrics sampleInput)) =
      renderStudentMetrics false (some (computeStudentMetrics sampleInput)) :=
  computeMetrics_deterministic sampleInput sampleInput rfl

/-- C10: with an empty recent-activity sequence the component still
returns a complete page: no feed rows are produced and the empty-state
flag is set. -/
theorem emptyActivity_view (m : StudentMetrics) (h : m.recentActivity = []) :
    renderStudentMetrics false (some m) =
      DashView.pageView m (completionRate m) (weeklyProgress m) [] true := by
  simp [renderStudentMetrics, h]

/-- Witness for C10 at the empty snapshot. -/
theorem emptyActivity_view_witness :
    renderStudentMetrics false (some emptyMetrics) =
      DashView.pageView emptyMetrics (completionRate emptyMetrics)
        (weeklyProgress emptyMetrics) [] true :=
  emptyActivity_view emptyMetrics rfl

end CursosLeadsPJ
